import Mathlib

/-!
Verification of the LMX backend's policy-gate components.

Shallow embedding of the credit/quota and moderation gate of the unified
backend revision (`src/unnamed/part_000`, the "LMX SYNTHETIC DESIGNER —
UNIFIED BACKEND" document) and of the ratio normaliser and request-side
credit check of `src/LMX_AI_Generator_final_server.js`.

Modelling conventions:
* JavaScript numbers that the code only ever treats as non-negative
  integers (`daily_cap`, `daily_used`, `tokens_balance`) are `Nat`;
  a stored SQL `null` coincides with `0`, matching the `x || 0`
  coercions the code applies at every read.
* The external Supabase store is threaded explicitly: a helper takes the
  current persisted row for the user and returns the updated row.  The
  success of a store write is an explicit `persistOk : Bool` parameter.
* The remote moderation call's outcome (thrown error, or a response with
  its `results` array) is an explicit input, since it is decided by the
  network, not by this code.
-/

namespace LMX

/-- One row of the `lmx_accounts` table, as read by the unified backend. -/
structure Account where
  user_id : String
  email : Option String
  plan_label : String
  daily_cap : Nat
  daily_used : Nat
  tokens_balance : Nat
  last_reset_date : String
  deriving Repr, DecidableEq

/-- The closed set of decisions produced by `moderatePrompt`
(`src/unnamed/part_000:237-259`). -/
inductive ModerationDecision where
  | safe
  | block_minor
  | block_nsfw
  | block_policy
  deriving Repr, DecidableEq

/-- The category flags of one entry of the remote moderation response's
`results` array that `moderatePrompt` reads: `categories["sexual/minors"]`,
`categories.sexual` and the overall `flagged` boolean.  A missing
`categories` object reads as all-false, which the `Bool` fields cover. -/
structure ModCats where
  sexualMinors : Bool
  sexual : Bool
  flagged : Bool
  deriving Repr, DecidableEq

/-- Outcome of the remote `client.moderations.create` call: either the
call threw (network error, timeout), or it returned a response whose
`results` array is given.  A response with no `results` field reads the
same as an empty array (`response?.results?.[0]` is undefined either way). -/
inductive ModerationOutcome where
  | thrown
  | returned (results : List ModCats)
  deriving Repr, DecidableEq

/-- Embeds `moderatePrompt` (`src/unnamed/part_000:237-259`), as a function
of the remote call's outcome.  The prompt text itself only flows into the
remote call and does not otherwise affect the decision. -/
def moderatePrompt : ModerationOutcome → ModerationDecision
  | .thrown => .block_policy
  | .returned [] => .safe
  | .returned (r :: _) =>
    if r.sexualMinors then .block_minor
    else if r.sexual then .block_nsfw
    else if r.flagged then .block_policy
    else .safe

/-- C2: whenever the remote moderation call fails (throws, times out, or
otherwise errors), `moderatePrompt` returns decision `block_policy` and
never returns `safe`: the catch-all branch of the function yields
`block_policy` for every erroring call, independent of the prompt. -/
theorem moderatePrompt_failClosed :
    moderatePrompt .thrown = .block_policy ∧ moderatePrompt .thrown ≠ .safe := by
  exact ⟨rfl, by decide⟩

/-- C9: if the remote moderation call completes without throwing but its
response carries no results entry (missing or empty `results` array),
`moderatePrompt` returns `safe` — this malformed-success branch fails open,
unlike the thrown-error branch which fails closed to `block_policy`. -/
theorem moderatePrompt_missingResults :
    moderatePrompt (.returned []) = .safe ∧ moderatePrompt .thrown = .block_policy := by
  exact ⟨rfl, rfl⟩

/-- C8: `moderatePrompt` maps classifier category flags by strict priority:
`sexual/minors` yields `block_minor` even when the general `sexual`
category (or the overall flag) is also set; `sexual` without minors yields
`block_nsfw`; an overall-flagged response without either category yields
`block_policy`; and absence of any flags yields `safe`. -/
theorem moderatePrompt_priority (r : ModCats) (rest : List ModCats) :
    (r.sexualMinors = true → moderatePrompt (.returned (r :: rest)) = .block_minor) ∧
    (r.sexualMinors = false → r.sexual = true →
      moderatePrompt (.returned (r :: rest)) = .block_nsfw) ∧
    (r.sexualMinors = false → r.sexual = false → r.flagged = true →
      moderatePrompt (.returned (r :: rest)) = .block_policy) ∧
    (r.sexualMinors = false → r.sexual = false → r.flagged = false →
      moderatePrompt (.returned (r :: rest)) = .safe) := by
  obtain ⟨m, s, f⟩ := r
  refine ⟨?_, ?_, ?_, ?_⟩ <;> intros <;> simp_all [moderatePrompt]

/-- Witness for C8 at a concrete flag vector: a result flagging both
`sexual/minors` and `sexual` yields `block_minor`. -/
theorem moderatePrompt_priority_witness :
    moderatePrompt (.returned [⟨true, true, true⟩]) = .block_minor :=
  (moderatePrompt_priority ⟨true, true, true⟩ []).1 rfl

/-- Failure reasons returned by `consumeCredit`. -/
inductive CreditReason where
  | banned
  | quota
  deriving Repr, DecidableEq

/-- The object `consumeCredit` returns: `{ ok, reason?, remaining?, account }`. -/
structure CreditResult where
  ok : Bool
  reason : Option CreditReason
  remaining : Option Nat
  account : Account
  deriving Repr, DecidableEq

/-- Embeds `consumeCredit` (`src/unnamed/part_000:339-377`) in the
configured-store case (the `!supabase || !account` guard, which returns
`ok: true` with the account unchanged, is the unconfigured path outside
the quota contract).  `account` is the in-memory argument; `row` is the
user's currently persisted row (equal to `account` except when an earlier
write in the same request, such as `banAccount`, already updated the row).
`persistOk` is the success of the Supabase `update`; on failure the code
logs and fails open with the stale account.  The second component is the
persisted row after the call; on a successful write the returned
`account` field is `data[0]`, the freshly updated row. -/
def consumeCredit (persistOk : Bool) (account row : Account) : CreditResult × Account :=
  if account.plan_label = "Banned" then
    (⟨false, some .banned, none, account⟩, row)
  else if 0 < account.daily_cap ∧ account.daily_cap ≤ account.daily_used then
    (⟨false, some .quota, some 0, account⟩, row)
  else
    let newUsed := account.daily_used + 1
    if persistOk then
      let newRow := { row with daily_used := newUsed }
      (⟨true, none, none, newRow⟩, newRow)
    else
      (⟨true, none, none, account⟩, row)

/-- The update payload `banAccount` (`src/unnamed/part_000:379-401`) writes
to the user's row: plan set to the banned sentinel, cap, used and tokens
zeroed; the other columns are untouched. -/
def banAccountPayload (account : Account) : Account :=
  { account with
    plan_label := "Banned"
    daily_cap := 0
    daily_used := 0
    tokens_balance := 0 }

/-- The `creditsRemaining` computation the endpoints apply to an account
(`src/unnamed/part_000:577-579`): `cap ? Math.max(cap - used, 0) : null`.
`Nat` subtraction is exactly `max(cap - used, 0)`. -/
def creditsRemainingOf (account : Account) : Option Nat :=
  if account.daily_cap ≠ 0 then some (account.daily_cap - account.daily_used) else none

/-- C1: `consumeCredit` satisfies the quota contract.  An account whose
plan label is the banned sentinel fails with reason `banned`; a non-banned
account with `dailyCap > 0` and `dailyUsed >= dailyCap` fails with reason
`quota` and `remaining = 0`; otherwise the call succeeds and (when the
store write goes through) increments `dailyUsed` by exactly one; and a
non-banned account with `dailyCap = 0` always succeeds regardless of
`dailyUsed`, with `creditsRemaining` reported as `null`.  The cap-0 clause
is scoped to non-banned accounts, as forced by the banned clause taking
precedence in the code. -/
theorem consumeCredit_contract (persistOk : Bool) (acc : Account) :
    (acc.plan_label = "Banned" →
      (consumeCredit persistOk acc acc).1.ok = false ∧
      (consumeCredit persistOk acc acc).1.reason = some .banned) ∧
    (acc.plan_label ≠ "Banned" → 0 < acc.daily_cap → acc.daily_cap ≤ acc.daily_used →
      (consumeCredit persistOk acc acc).1.ok = false ∧
      (consumeCredit persistOk acc acc).1.reason = some .quota ∧
      (consumeCredit persistOk acc acc).1.remaining = some 0) ∧
    (acc.plan_label ≠ "Banned" → (acc.daily_cap = 0 ∨ acc.daily_used < acc.daily_cap) →
      (consumeCredit persistOk acc acc).1.ok = true ∧
      (persistOk = true →
        (consumeCredit persistOk acc acc).1.account.daily_used = acc.daily_used + 1)) ∧
    (acc.plan_label ≠ "Banned" → acc.daily_cap = 0 →
      (consumeCredit persistOk acc acc).1.ok = true ∧
      creditsRemainingOf (consumeCredit persistOk acc acc).1.account = none) := by
  refine ⟨?_, ?_, ?_, ?_⟩
  · intro h
    simp [consumeCredit, h]
  · intro h h1 h2
    simp [consumeCredit, h, h1, h2]
  · intro h hfree
    have hq : ¬(0 < acc.daily_cap ∧ acc.daily_cap ≤ acc.daily_used) := by omega
    cases persistOk <;> simp [consumeCredit, h, hq]
  · intro h hcap
    have hq : ¬(0 < acc.daily_cap ∧ acc.daily_cap ≤ acc.daily_used) := by omega
    cases persistOk <;> simp [consumeCredit, creditsRemainingOf, h, hq, hcap]

/-- Witness for C1 at concrete accounts: a banned account fails with
`banned`; a non-banned account at cap 5, used 2 succeeds and its persisted
`daily_used` becomes 3; a cap-0 account at used 99 succeeds with
`creditsRemaining` null. -/
theorem consumeCredit_contract_witness :
    ((consumeCredit true ⟨"u", none, "Banned", 0, 0, 0, "d"⟩
        ⟨"u", none, "Banned", 0, 0, 0, "d"⟩).1.reason = some .banned) ∧
    ((consumeCredit true ⟨"u", none, "Free", 5, 2, 0, "d"⟩
        ⟨"u", none, "Free", 5, 2, 0, "d"⟩).1.account.daily_used = 3) ∧
    ((consumeCredit true ⟨"u", none, "Guest", 0, 99, 0, "d"⟩
        ⟨"u", none, "Guest", 0, 99, 0, "d"⟩).1.ok = true ∧
      creditsRemainingOf (consumeCredit true ⟨"u", none, "Guest", 0, 99, 0, "d"⟩
        ⟨"u", none, "Guest", 0, 99, 0, "d"⟩).1.account = none) :=
  ⟨((consumeCredit_contract true ⟨"u", none, "Banned", 0, 0, 0, "d"⟩).1 rfl).2,
   ((consumeCredit_contract true ⟨"u", none, "Free", 5, 2, 0, "d"⟩).2.2.1
      (by decide) (Or.inr (by decide))).2 rfl,
   (consumeCredit_contract true ⟨"u", none, "Guest", 0, 99, 0, "d"⟩).2.2.2
      (by decide) rfl⟩

/-- True when `pat` is an initial segment of `l` (helper for the substring
test `String.prototype.includes` performs). -/
def isInitialSeg : List Char → List Char → Bool
  | [], _ => true
  | _ :: _, [] => false
  | p :: ps, c :: cs => p = c && isInitialSeg ps cs

/-- True when `pat` occurs contiguously inside `l`, matching the JavaScript
`l.includes(pat)` substring test. -/
def containsSub (pat : List Char) : List Char → Bool
  | [] => isInitialSeg pat []
  | c :: cs => isInitialSeg pat (c :: cs) || containsSub pat cs

/-- Whitespace predicate for the JavaScript `String.prototype.trim`
model (the code only ever trims ordinary ASCII whitespace). -/
def isWs (c : Char) : Bool := c = ' ' ∨ c = '\t' ∨ c = '\n' ∨ c = '\r'

/-- Model of JavaScript `s.trim()`: drop whitespace from both ends. -/
def jsTrim (s : String) : String :=
  ⟨((s.data.dropWhile isWs).reverse.dropWhile isWs).reverse⟩

/-- Embeds `looksObviouslyBad` (`src/unnamed/part_000:222-233`):
case-insensitive substring match of the text against the fixed deny-list;
the empty text is falsy and passes. -/
def looksObviouslyBad (text : String) : Bool :=
  if text = "" then false
  else
    let lower := text.data.map Char.toLower
    ["csam", "child sexual", "child abuse", "exploitative minor",
      "revenge porn"].any fun w => containsSub w.data lower

/-- Model of `BANNED_IPS.add(ip)`: add-only, idempotent insertion into the
process-wide in-memory set (`src/unnamed/part_000:263`). -/
def addIp (ips : List String) (ip : String) : List String :=
  if ip ∈ ips then ips else ip :: ips

/-- The HTTP responses the `/lmx1/generate` handler can produce up to and
including the gate's decision (the downstream generation call and its
success/error shaping are outside the gate). -/
inductive GateResponse where
  | httpError (status : Nat) (code : String)
  | bannedResp (status : Nat) (reason : String)
  | quotaResp (status : Nat) (dailyCap dailyUsed creditsRemaining : Nat)
  | softBlock (status : Nat) (reason : ModerationDecision)
  | success (creditsRemaining : Option Nat)
  deriving Repr, DecidableEq

/-- Outcome of one gated request: the response decided by the gate, the
persisted account row for the requesting user after the request (as the
store leaves it), and the in-memory IP ban set after the request. -/
structure GateResult where
  response : GateResponse
  account : Option Account
  bannedIps : List String
  deriving Repr, DecidableEq

/-- Embeds the gate portion of the `/lmx1/generate` handler
(`src/unnamed/part_000:473-634`): IP-ban check, prompt presence check,
lexical pre-filter, account-ban check, moderation branch (`block_minor`
bans the account via `banAccount`, adds the IP when non-empty, and calls
`consumeCredit` with the stale in-memory account object against the
already-banned persisted row; `block_nsfw`/`block_policy` soft-block with
HTTP 200 and touch nothing), and the quota-consumption stage on `safe`.
`account` is the result of `getOrCreateAccount` (already daily-reset);
`mod` is the remote moderation call's outcome; `persistOk` is the success
of the store writes issued by `consumeCredit`.  On the `account_banned`
branch the code adds the IP unconditionally (`BANNED_IPS.add(ip)` with no
guard), while the `block_minor` branch guards with `if (ip)`. -/
def lmx1Generate (bannedIps : List String) (ip userId prompt : String)
    (account : Option Account) (mod : ModerationOutcome) (persistOk : Bool) :
    GateResult :=
  if ip ≠ "" ∧ ip ∈ bannedIps then
    ⟨.bannedResp 403 "ip_banned", account, bannedIps⟩
  else
    let p := jsTrim prompt
    if p = "" then
      ⟨.httpError 400 "Missing prompt", account, bannedIps⟩
    else if looksObviouslyBad p then
      ⟨.httpError 400 "unsafe_content", account, bannedIps⟩
    else if account.map Account.plan_label = some "Banned" then
      ⟨.bannedResp 403 "account_banned", account, addIp bannedIps ip⟩
    else
      match moderatePrompt mod with
      | .block_minor =>
        let rowAfterBan :=
          if account.isSome ∨ userId ≠ "" then account.map banAccountPayload
          else account
        let finalRow :=
          match account, rowAfterBan with
          | some acc, some row => some (consumeCredit persistOk acc row).2
          | _, r => r
        ⟨.bannedResp 403 "predator", finalRow,
          if ip ≠ "" then addIp bannedIps ip else bannedIps⟩
      | .block_nsfw =>
        ⟨.softBlock 200 .block_nsfw, account, bannedIps⟩
      | .block_policy =>
        ⟨.softBlock 200 .block_policy, account, bannedIps⟩
      | .safe =>
        match account with
        | none => ⟨.success none, none, bannedIps⟩
        | some acc =>
          let r := consumeCredit persistOk acc acc
          if r.1.ok = false ∧ r.1.reason = some .banned then
            ⟨.bannedResp 403 "account_banned", some r.2, bannedIps⟩
          else if r.1.ok = false ∧ r.1.reason = some .quota then
            ⟨.quotaResp 402 acc.daily_cap acc.daily_used 0, some r.2, bannedIps⟩
          else
            ⟨.success (creditsRemainingOf r.1.account), some r.2, bannedIps⟩

/-- `n` consecutive same-day `consumeCredit` calls with successful store
writes, each call passing the account object the previous call returned
(`creditResult.account`, the freshly persisted row). -/
def consumeN : Nat → Account → Account
  | 0, a => a
  | n + 1, a => consumeN n ((consumeCredit true a a).1.account)

/-- Helper: while the cap is not exceeded, each same-day call adds exactly
one to `daily_used` and changes nothing else. -/
theorem consumeN_eq (n : Nat) : ∀ a : Account, a.plan_label ≠ "Banned" →
    a.daily_used + n ≤ a.daily_cap →
    consumeN n a = { a with daily_used := a.daily_used + n } := by
  induction n with
  | zero => intro a h hle; simp [consumeN]
  | succ n ih =>
    intro a h hle
    have hq : ¬(0 < a.daily_cap ∧ a.daily_cap ≤ a.daily_used) := by omega
    have hstep : (consumeCredit true a a).1.account =
        { a with daily_used := a.daily_used + 1 } := by
      simp [consumeCredit, h, hq]
    rw [consumeN, hstep, ih _ (by simpa using h) (by simp; omega)]
    have harith : a.daily_used + 1 + n = a.daily_used + (n + 1) := by omega
    simp [harith]

/-- C3: for every non-banned account with `dailyCap = N > 0` and
`dailyUsed = 0`, `N` consecutive same-day `consumeCredit` calls all
succeed, and the `(N+1)`th call fails with reason `quota` and reports
`remaining = 0`; at the endpoint, a safe request for the exhausted account
is answered with HTTP 402 and `creditsRemaining: 0`.  Scoped to non-banned
accounts, as forced by the banned branch taking precedence in the code. -/
theorem consumeCredit_exhaustion (N : Nat) (hN : 0 < N) (acc : Account)
    (hplan : acc.plan_label ≠ "Banned") (hcap : acc.daily_cap = N)
    (hused : acc.daily_used = 0) :
    (∀ i, i < N → (consumeCredit true (consumeN i acc) (consumeN i acc)).1.ok = true) ∧
    ((consumeCredit true (consumeN N acc) (consumeN N acc)).1.ok = false ∧
      (consumeCredit true (consumeN N acc) (consumeN N acc)).1.reason = some .quota ∧
      (consumeCredit true (consumeN N acc) (consumeN N acc)).1.remaining = some 0) ∧
    (∀ (bannedIps : List String) (ip userId prompt : String) (mod : ModerationOutcome),
      ¬(ip ≠ "" ∧ ip ∈ bannedIps) → jsTrim prompt ≠ "" →
      looksObviouslyBad (jsTrim prompt) = false → moderatePrompt mod = .safe →
      (lmx1Generate bannedIps ip userId prompt (some (consumeN N acc)) mod true).response =
        .quotaResp 402 N N 0) := by
  have hAN : consumeN N acc = { acc with daily_used := N } := by
    have h := consumeN_eq N acc hplan (by omega)
    simpa [hused] using h
  refine ⟨?_, ?_, ?_⟩
  · intro i hi
    have hAi : consumeN i acc = { acc with daily_used := i } := by
      have h := consumeN_eq i acc hplan (by omega)
      simpa [hused] using h
    have hq : ¬(0 < acc.daily_cap ∧ acc.daily_cap ≤ i) := by omega
    simp [hAi, consumeCredit, hplan, hq]
  · have hq : 0 < acc.daily_cap ∧ acc.daily_cap ≤ N := by omega
    simp [hAN, consumeCredit, hplan, hq]
  · intro bannedIps ip userId prompt mod hip hp hbad hmod
    have hq : 0 < acc.daily_cap ∧ acc.daily_cap ≤ N := by omega
    simp [lmx1Generate, hip, hp, hbad, hmod, hAN, consumeCredit, hplan, hq, hcap, hN]

/-- Witness for C3: a fresh cap-2 account, exhausted by two calls, is
answered HTTP 402 with `creditsRemaining: 0` on the third request. -/
theorem consumeCredit_exhaustion_witness :
    (0 : Nat) < 2 ∧
    (lmx1Generate [] "1.2.3.4" "u3" "hello"
        (some (consumeN 2 ⟨"u3", none, "Free", 2, 0, 0, "d"⟩))
        (.returned [⟨false, false, false⟩]) true).response = .quotaResp 402 2 2 0 :=
  ⟨by decide,
    (consumeCredit_exhaustion 2 (by decide) ⟨"u3", none, "Free", 2, 0, 0, "d"⟩
        (by decide) rfl rfl).2.2 [] "1.2.3.4" "u3" "hello"
      (.returned [⟨false, false, false⟩]) (by decide) (by decide) (by decide) (by decide)⟩

/-- C4 counterexample: the claim that on `block_minor` with an account
present the account ends with `dailyUsed` zeroed AND one credit consumed
fails on the code.  For an at-quota account (cap 2, used 2) the stale
quota check inside `consumeCredit` fails with `quota`, so no credit is
consumed (`daily_used` stays `0` from the ban payload, not `2 + 1`); for
an account with remaining quota (cap 5, used 1) the stale increment
overwrites the ban payload's zero, leaving `daily_used = 2`, not `0`. -/
theorem blockMinor_counterexample :
    (lmx1Generate [] "9.9.9.9" "u4" "a castle"
        (some ⟨"u4", none, "Creator", 2, 2, 7, "d"⟩)
        (.returned [⟨true, true, true⟩]) true).response = .bannedResp 403 "predator" ∧
    (lmx1Generate [] "9.9.9.9" "u4" "a castle"
        (some ⟨"u4", none, "Creator", 2, 2, 7, "d"⟩)
        (.returned [⟨true, true, true⟩]) true).account.map Account.daily_used = some 0 ∧
    some (0 : Nat) ≠ some (2 + 1) ∧
    (lmx1Generate [] "8.8.8.8" "u5" "a castle"
        (some ⟨"u5", none, "Pro", 5, 1, 0, "d"⟩)
        (.returned [⟨true, false, true⟩]) true).account.map Account.daily_used = some 2 ∧
    some (2 : Nat) ≠ some 0 := by
  decide

/-- C4 (amended): when the moderation decision is `block_minor` and an
account is present, the persisted row gets the ban payload (plan set to
the banned sentinel with cap, used and tokens zeroed), the requester's IP
is added to the in-memory ban registry when non-empty, the response is
HTTP 403 with reason `predator`, and a credit consumption is attempted
with the pre-ban account snapshot: if the snapshot still had quota
(cap = 0 or used < cap) the row's `daily_used` ends at snapshot used + 1,
while an at-quota snapshot is banned without any credit being charged. -/
theorem blockMinor_effects (bannedIps : List String) (ip userId prompt : String)
    (acc : Account) (mod : ModerationOutcome)
    (hip : ¬(ip ≠ "" ∧ ip ∈ bannedIps)) (hp : jsTrim prompt ≠ "")
    (hbad : looksObviouslyBad (jsTrim prompt) = false)
    (hplan : acc.plan_label ≠ "Banned")
    (hmod : moderatePrompt mod = .block_minor) :
    (lmx1Generate bannedIps ip userId prompt (some acc) mod true).response =
      .bannedResp 403 "predator" ∧
    (lmx1Generate bannedIps ip userId prompt (some acc) mod true).bannedIps =
      (if ip ≠ "" then addIp bannedIps ip else bannedIps) ∧
    (lmx1Generate bannedIps ip userId prompt (some acc) mod true).account =
      some (if 0 < acc.daily_cap ∧ acc.daily_cap ≤ acc.daily_used
            then banAccountPayload acc
            else { banAccountPayload acc with daily_used := acc.daily_used + 1 }) := by
  by_cases hq : 0 < acc.daily_cap ∧ acc.daily_cap ≤ acc.daily_used <;>
    simp [lmx1Generate, hip, hp, hbad, hmod, hplan, hq, consumeCredit, banAccountPayload]

/-- Witness for the amended C4 at a concrete request: an unlimited-plan
account flagged for minors is answered 403 `predator`. -/
theorem blockMinor_effects_witness :
    (lmx1Generate [] "7.7.7.7" "u7" "a boat"
        (some ⟨"u7", none, "Studio", 0, 4, 9, "d"⟩)
        (.returned [⟨true, false, false⟩]) true).response = .bannedResp 403 "predator" :=
  (blockMinor_effects [] "7.7.7.7" "u7" "a boat" ⟨"u7", none, "Studio", 0, 4, 9, "d"⟩
    (.returned [⟨true, false, false⟩]) (by decide) (by decide) (by decide) (by decide)
    (by decide)).1

/-- C5: when the moderation decision is `block_nsfw` or `block_policy`,
the endpoint responds with HTTP 200 carrying `blocked: true`, no credit is
consumed, and neither the persisted account row nor the IP ban registry is
changed by the request. -/
theorem softBlock_frame (bannedIps : List String) (ip userId prompt : String)
    (account : Option Account) (mod : ModerationOutcome) (persistOk : Bool)
    (hip : ¬(ip ≠ "" ∧ ip ∈ bannedIps)) (hp : jsTrim prompt ≠ "")
    (hbad : looksObviouslyBad (jsTrim prompt) = false)
    (hacc : account.map Account.plan_label ≠ some "Banned")
    (hmod : moderatePrompt mod = .block_nsfw ∨ moderatePrompt mod = .block_policy) :
    (lmx1Generate bannedIps ip userId prompt account mod persistOk).response =
      .softBlock 200 (moderatePrompt mod) ∧
    (lmx1Generate bannedIps ip userId prompt account mod persistOk).account = account ∧
    (lmx1Generate bannedIps ip userId prompt account mod persistOk).bannedIps =
      bannedIps := by
  rcases hmod with hmod | hmod <;> simp [lmx1Generate, hip, hp, hbad, hacc, hmod]

/-- Witness for C5 at a concrete request: an NSFW-flagged prompt gets the
soft block and the account row is untouched. -/
theorem softBlock_frame_witness :
    (lmx1Generate [] "2.2.2.2" "u5b" "a fox"
        (some ⟨"u5b", none, "Free", 3, 1, 0, "d"⟩)
        (.returned [⟨false, true, true⟩]) true).response =
      .softBlock 200 (moderatePrompt (.returned [⟨false, true, true⟩])) ∧
    (lmx1Generate [] "2.2.2.2" "u5b" "a fox"
        (some ⟨"u5b", none, "Free", 3, 1, 0, "d"⟩)
        (.returned [⟨false, true, true⟩]) true).account =
      some ⟨"u5b", none, "Free", 3, 1, 0, "d"⟩ :=
  ⟨(softBlock_frame [] "2.2.2.2" "u5b" "a fox" (some ⟨"u5b", none, "Free", 3, 1, 0, "d"⟩)
      (.returned [⟨false, true, true⟩]) true (by decide) (by decide) (by decide)
      (by decide) (Or.inl (by decide))).1,
   (softBlock_frame [] "2.2.2.2" "u5b" "a fox" (some ⟨"u5b", none, "Free", 3, 1, 0, "d"⟩)
      (.returned [⟨false, true, true⟩]) true (by decide) (by decide) (by decide)
      (by decide) (Or.inl (by decide))).2.1⟩

/-- C6 counterexample: the claim that a request whose resolved account has
plan label "Banned" always fails at the account-lookup stage regardless of
prompt content fails on the code, because the lexical pre-filter runs
first: with prompt "child sexual content" (a deny-list hit) the banned
account's request is rejected as a 400 `unsafe_content` before the account
stage, and the IP is not added to the ban registry. -/
theorem bannedAccount_gate_counterexample :
    (lmx1Generate [] "1.1.1.1" "u6" "child sexual content"
        (some ⟨"u6", none, "Banned", 0, 0, 0, "d"⟩) (.returned []) true).response =
      .httpError 400 "unsafe_content" ∧
    (lmx1Generate [] "1.1.1.1" "u6" "child sexual content"
        (some ⟨"u6", none, "Banned", 0, 0, 0, "d"⟩) (.returned []) true).response ≠
      .bannedResp 403 "account_banned" ∧
    (lmx1Generate [] "1.1.1.1" "u6" "child sexual content"
        (some ⟨"u6", none, "Banned", 0, 0, 0, "d"⟩) (.returned []) true).bannedIps = [] := by
  decide

/-- C6 (amended): provided the request passes the IP-ban check, has a
non-empty prompt, and the prompt does not match the lexical deny-list, a
request whose resolved account has plan label "Banned" always fails at the
account-lookup stage: it is rejected 403 with reason `account_banned`, the
IP is added to the in-memory ban registry, and the row is untouched —
regardless of the moderation outcome and of the account's quota state. -/
theorem bannedAccount_gate (bannedIps : List String) (ip userId prompt : String)
    (acc : Account) (mod : ModerationOutcome) (persistOk : Bool)
    (hip : ¬(ip ≠ "" ∧ ip ∈ bannedIps)) (hp : jsTrim prompt ≠ "")
    (hbad : looksObviouslyBad (jsTrim prompt) = false)
    (hplan : acc.plan_label = "Banned") :
    (lmx1Generate bannedIps ip userId prompt (some acc) mod persistOk).response =
      .bannedResp 403 "account_banned" ∧
    (lmx1Generate bannedIps ip userId prompt (some acc) mod persistOk).bannedIps =
      addIp bannedIps ip ∧
    (lmx1Generate bannedIps ip userId prompt (some acc) mod persistOk).account =
      some acc := by
  simp [lmx1Generate, hip, hp, hbad, hplan]

/-- Witness for the amended C6 at a concrete request: a banned account
with non-trivial quota state and an erroring moderation call still fails
at the account stage. -/
theorem bannedAccount_gate_witness :
    (lmx1Generate [] "3.3.3.3" "u6b" "a tree"
        (some ⟨"u6b", none, "Banned", 5, 5, 0, "d"⟩) .thrown false).response =
      .bannedResp 403 "account_banned" :=
  (bannedAccount_gate [] "3.3.3.3" "u6b" "a tree" ⟨"u6b", none, "Banned", 5, 5, 0, "d"⟩
    .thrown false (by decide) (by decide) (by decide) rfl).1

/-- Model of JavaScript `Math.round`: round half towards positive
infinity, i.e. `⌊q + 1/2⌋`. -/
def jsRound (q : ℚ) : ℤ := Int.floor (q + 1 / 2)

/-- Embeds `ratioToSize` (`src/LMX_AI_Generator_final_server.js:49-75`)
as a function of the two `parseFloat` results for the `"W:H"` split
(`none` models `NaN`/`undefined`, so a non-string or malformed input is
covered by the `none` cases; exact rationals stand in for the finite
doubles the code manipulates).  The JavaScript falsiness test `!w || !h`
is true exactly for `NaN`/`undefined` and `0`. -/
def ratioToSize (w h : Option ℚ) : String :=
  match w, h with
  | some w, some h =>
    if w = 0 ∨ h = 0 then "1024x1024"
    else
      let wh : ℤ × ℤ :=
        if h ≤ w then (jsRound (w / h * 1024), 1024)
        else (1024, jsRound (h / w * 1024))
      toString (min wh.1 2048) ++ "x" ++ toString (min wh.2 2048)
  | _, _ => "1024x1024"

/-- The claim's reading of the arbitrary-ratio contract, for comparison:
scale the LARGER side to the fixed base 1024 and the shorter side
proportionally, clamp both to 2048, default on non-positive input. -/
def ratioToSizeSpecLarger (w h : ℚ) : String :=
  if w ≤ 0 ∨ h ≤ 0 then "1024x1024"
  else
    let wh : ℤ × ℤ :=
      if h ≤ w then (1024, jsRound (h / w * 1024))
      else (jsRound (w / h * 1024), 1024)
    toString (min wh.1 2048) ++ "x" ++ toString (min wh.2 2048)

/-- C7 counterexample: the code scales the SMALLER side to 1024 (the
comment in the source says "Use 1024 on the smallest dimension") — on
`"16:9"` it returns `"1820x1024"` where the claim's scale-the-larger-side
reading demands `"1024x576"`; and a non-positive pair such as `"-2:-1"`
is processed arithmetically to `"1024x512"` instead of falling back to
the square default. -/
theorem ratioToSize_counterexample :
    ratioToSize (some 16) (some 9) = "1820x1024" ∧
    ratioToSizeSpecLarger 16 9 = "1024x576" ∧
    ratioToSize (some 16) (some 9) ≠ ratioToSizeSpecLarger 16 9 ∧
    ratioToSize (some (-2)) (some (-1)) = "1024x512" ∧
    ratioToSize (some (-2)) (some (-1)) ≠ "1024x1024" := by
  refine ⟨?_, ?_, ?_, ?_, ?_⟩ <;> · norm_num [ratioToSize, ratioToSizeSpecLarger, jsRound]
                                    decide

/-- C7 (amended): for every `"W:H"` input whose components parse as
positive numbers, `ratioToSize` scales the SMALLER side to the fixed base
1024 and the larger side proportionally, with the scaled side clamped to
a maximum of 2048 and never below 1024; a missing, `NaN` or zero
component yields the square default `"1024x1024"`; and the function is
deterministic and total.  Only zero or unparsable components are
defaulted; negative pairs go through the same arithmetic. -/
theorem ratioToSize_behavior (w h : ℚ) :
    (0 < h → h ≤ w →
      ratioToSize (some w) (some h) =
        toString (min (jsRound (w / h * 1024)) 2048) ++ "x" ++ "1024" ∧
      1024 ≤ min (jsRound (w / h * 1024)) 2048 ∧
      min (jsRound (w / h * 1024)) 2048 ≤ 2048) ∧
    (0 < w → w < h →
      ratioToSize (some w) (some h) =
        "1024" ++ "x" ++ toString (min (jsRound (h / w * 1024)) 2048) ∧
      1024 ≤ min (jsRound (h / w * 1024)) 2048 ∧
      min (jsRound (h / w * 1024)) 2048 ≤ 2048) ∧
    ratioToSize none (some h) = "1024x1024" ∧
    ratioToSize (some w) none = "1024x1024" ∧
    ratioToSize (some 0) (some h) = "1024x1024" ∧
    ratioToSize (some w) (some 0) = "1024x1024" := by
  have h1024 : min (1024 : ℤ) 2048 = 1024 := by norm_num
  have hts : toString (1024 : ℤ) = "1024" := by decide
  have hx : ("1024" : String) ++ "x" = "1024x" := by decide
  refine ⟨?_, ?_, rfl, rfl, by simp [ratioToSize], by simp [ratioToSize]⟩
  · intro hh hle
    have hw : 0 < w := lt_of_lt_of_le hh hle
    have hdiv : (1 : ℚ) ≤ w / h := (le_div_iff₀ hh).mpr (by linarith)
    have hbase : (1024 : ℚ) ≤ w / h * 1024 := by nlinarith
    have hfloor : (1024 : ℤ) ≤ jsRound (w / h * 1024) := by
      rw [jsRound]
      apply Int.le_floor.mpr
      push_cast
      linarith
    refine ⟨?_, le_min hfloor (by norm_num), min_le_right _ _⟩
    simp [ratioToSize, ne_of_gt hw, ne_of_gt hh, hle, h1024, hts]
  · intro hw hlt
    have hh : 0 < h := lt_trans hw hlt
    have hdiv : (1 : ℚ) ≤ h / w := (le_div_iff₀ hw).mpr (by linarith)
    have hbase : (1024 : ℚ) ≤ h / w * 1024 := by nlinarith
    have hfloor : (1024 : ℤ) ≤ jsRound (h / w * 1024) := by
      rw [jsRound]
      apply Int.le_floor.mpr
      push_cast
      linarith
    have hnle : ¬ h ≤ w := not_le.mpr hlt
    refine ⟨?_, le_min hfloor (by norm_num), min_le_right _ _⟩
    simp [ratioToSize, ne_of_gt hw, ne_of_gt hh, hnle, h1024, hts, hx]

/-- Witness for the amended C7 at the concrete input `"16:9"`: the
smaller side 9 maps to 1024 and the larger side is scaled. -/
theorem ratioToSize_behavior_witness :
    ratioToSize (some 16) (some 9) =
      toString (min (jsRound (16 / 9 * 1024)) 2048) ++ "x" ++ "1024" :=
  ((ratioToSize_behavior 16 9).1 (by norm_num) (by norm_num)).1

/-- A JavaScript value as it can reach the credits check from a header or
a JSON body field: a number, a string, or `null`.  A missing field is an
`Option.none` around this type (undefined). -/
inductive JsVal where
  | num (q : ℚ)
  | str (s : String)
  | nullv
  deriving Repr, DecidableEq

/-- JavaScript nullish coalescing `a ?? b`: `none` models `undefined` and
`.nullv` models `null`; both fall through to `b`. -/
def coalesce (a b : Option JsVal) : Option JsVal :=
  match a with
  | some v => if v = .nullv then b else some v
  | none => b

/-- The parts of a request that `checkCredits`
(`src/LMX_AI_Generator_final_server.js:501-554`) reads: the two credit
headers (headers are strings when present) and the two body fields. -/
structure CreditsRequest where
  hdrLmxCredits : Option String
  hdrUserCredits : Option String
  hasBody : Bool
  bodyCredits : Option JsVal
  bodyCreditsRemaining : Option JsVal
  deriving Repr, DecidableEq

/-- The `rawCredits` chain of `checkCredits`:
`headers["x-lmx-credits"] ?? headers["x-user-credits"] ??
(req.body ? req.body.credits ?? req.body.creditsRemaining : null)`. -/
def resolveRawCredits (r : CreditsRequest) : Option JsVal :=
  coalesce (r.hdrLmxCredits.map .str)
    (coalesce (r.hdrUserCredits.map .str)
      (if r.hasBody then coalesce r.bodyCredits r.bodyCreditsRemaining
       else some .nullv))

/-- Decimal value of a digit list (most significant first). -/
def digitsVal (cs : List Char) : Nat :=
  cs.foldl (fun a c => a * 10 + (c.toNat - 48)) 0

/-- Unsigned part of the JavaScript `Number(string)` conversion for plain
decimal literals: digits, optionally with a fractional point; anything
else (including trailing garbage) is `NaN`, modelled as `none`. -/
def numberOfUnsigned (cs : List Char) : Option ℚ :=
  let ip := cs.takeWhile Char.isDigit
  let rest := cs.drop ip.length
  match rest with
  | [] => if ip = [] then none else some (digitsVal ip)
  | '.' :: fp =>
    if fp.all Char.isDigit ∧ (ip ≠ [] ∨ fp ≠ []) then
      some ((digitsVal ip : ℚ) + (digitsVal fp : ℚ) / (10 : ℚ) ^ fp.length)
    else none
  | _ => none

/-- Model of JavaScript `Number(string)`: whitespace is trimmed, the empty
string converts to `0`, an optionally signed decimal literal converts to
its value, and anything else is `NaN` (`none`).  Exotic literal forms the
backend never sends (hex, exponents, `Infinity`) are out of the model. -/
def numberOfString (s : String) : Option ℚ :=
  match (jsTrim s).data with
  | [] => some 0
  | '-' :: cs => (numberOfUnsigned cs).map fun q => -q
  | '+' :: cs => numberOfUnsigned cs
  | cs => numberOfUnsigned cs

/-- Model of JavaScript `Number(v)` on the values that can reach the
conversion: numbers are themselves, `null` is `0`, strings are parsed. -/
def jsToNumber : JsVal → Option ℚ
  | .num q => some q
  | .nullv => some 0
  | .str s => numberOfString s

/-- The object `checkCredits` returns (`ok`, machine `code`, and the
`remaining` count when one is reported). -/
structure CheckResult where
  ok : Bool
  code : String
  remaining : Option ℚ
  deriving Repr, DecidableEq

/-- Embeds `checkCredits` (`src/LMX_AI_Generator_final_server.js:501-554`):
no value supplied (or `null`) allows with `no_limit_configured`; a value
converting to `NaN` allows with `invalid_credits_value`; a positive number
allows with `has_credits`; any other number blocks with `no_credits` and
`remaining: 0`.  The function reads nothing but the request; the
`try/catch` fail-open arm guards only against exceptions the pure model
cannot raise. -/
def checkCredits (r : CreditsRequest) : CheckResult :=
  match resolveRawCredits r with
  | none => ⟨true, "no_limit_configured", none⟩
  | some .nullv => ⟨true, "no_limit_configured", none⟩
  | some v =>
    match jsToNumber v with
    | none => ⟨true, "invalid_credits_value", none⟩
    | some n =>
      if 0 < n then ⟨true, "has_credits", some n⟩
      else ⟨false, "no_credits", some 0⟩

/-- C10: `checkCredits` reads the remaining-credit count solely from the
request (headers `x-lmx-credits` / `x-user-credits` or body fields
`credits` / `creditsRemaining`); every request that supplies no such value
and every request whose value converts to `NaN` is allowed, so the check
blocks exactly when the client itself sends a value converting to a
number `<= 0` — quota enforcement on this endpoint family is entirely
client-controlled. -/
theorem checkCredits_clientControlled (r : CreditsRequest) :
    ((checkCredits r).ok = false ↔
      ∃ v q, resolveRawCredits r = some v ∧ v ≠ JsVal.nullv ∧
        jsToNumber v = some q ∧ q ≤ 0) ∧
    (resolveRawCredits r = none ∨ resolveRawCredits r = some JsVal.nullv →
      (checkCredits r).ok = true) ∧
    (∀ v, resolveRawCredits r = some v → jsToNumber v = none →
      (checkCredits r).ok = true) := by
  refine ⟨?_, ?_, ?_⟩
  · cases hr : resolveRawCredits r with
    | none => simp [checkCredits, hr]
    | some v =>
      cases v with
      | nullv => simp [checkCredits, hr]
      | num q =>
        rcases le_or_lt q 0 with hq | hq
        · constructor
          · intro _
            exact ⟨.num q, q, rfl, by simp, rfl, hq⟩
          · intro _
            have hc : checkCredits r = ⟨false, "no_credits", some 0⟩ := by
              unfold checkCredits
              rw [hr]
              simp [jsToNumber, not_lt.mpr hq]
            rw [hc]
        · constructor
          · intro hok
            have hc : checkCredits r = ⟨true, "has_credits", some q⟩ := by
              unfold checkCredits
              rw [hr]
              simp [jsToNumber, hq]
            rw [hc] at hok
            simp at hok
          · rintro ⟨v', q', hv', hne, hnum, hle⟩
            obtain rfl : JsVal.num q = v' := Option.some.inj hv'
            simp only [jsToNumber, Option.some.injEq] at hnum
            subst hnum
            exact absurd hle (not_le.mpr hq)
      | str s =>
        cases hn : numberOfString s with
        | none =>
          constructor
          · intro hok
            have hc : checkCredits r = ⟨true, "invalid_credits_value", none⟩ := by
              unfold checkCredits
              rw [hr]
              simp [jsToNumber, hn]
            rw [hc] at hok
            simp at hok
          · rintro ⟨v', q', hv', hne, hnum, hle⟩
            obtain rfl : JsVal.str s = v' := Option.some.inj hv'
            simp [jsToNumber, hn] at hnum
        | some q =>
          rcases le_or_lt q 0 with hq | hq
          · constructor
            · intro _
              exact ⟨.str s, q, rfl, by simp, by simp [jsToNumber, hn], hq⟩
            · intro _
              have hc : checkCredits r = ⟨false, "no_credits", some 0⟩ := by
                unfold checkCredits
                rw [hr]
                simp [jsToNumber, hn, not_lt.mpr hq]
              rw [hc]
          · constructor
            · intro hok
              have hc : checkCredits r = ⟨true, "has_credits", some q⟩ := by
                unfold checkCredits
                rw [hr]
                simp [jsToNumber, hn, hq]
              rw [hc] at hok
              simp at hok
            · rintro ⟨v', q', hv', hne, hnum, hle⟩
              obtain rfl : JsVal.str s = v' := Option.some.inj hv'
              simp only [jsToNumber, hn, Option.some.injEq] at hnum
              subst hnum
              exact absurd hle (not_le.mpr hq)
  · intro hcase
    rcases hcase with hr | hr <;> simp [checkCredits, hr]
  · intro v hr hn
    cases v with
    | nullv => simp [checkCredits, hr]
    | num q => simp [jsToNumber] at hn
    | str s =>
      simp only [jsToNumber] at hn
      simp [checkCredits, hr, jsToNumber, hn]

/-- Witness for C10 at concrete requests: no value supplied allows, a
garbage string allows, and a client-sent `"0"` header blocks. -/
theorem checkCredits_clientControlled_witness :
    (checkCredits ⟨none, none, true, none, none⟩).ok = true ∧
    (checkCredits ⟨some "abc", none, false, none, none⟩).ok = true ∧
    (checkCredits ⟨some "0", none, true, some (.num 42), none⟩).ok = false :=
  ⟨(checkCredits_clientControlled ⟨none, none, true, none, none⟩).2.1
      (Or.inl (by decide)),
   (checkCredits_clientControlled ⟨some "abc", none, false, none, none⟩).2.2
      (.str "abc") (by decide) (by decide),
   (checkCredits_clientControlled ⟨some "0", none, true, some (.num 42), none⟩).1.mpr
      ⟨.str "0", 0, by decide, by decide, by decide, le_refl 0⟩⟩

end LMX
